import Mathlib

/- Verification development for the `ModestImage` class of
   `src/modest_image/modest_image.py` (package `mpl-modest-image`).

   The embedding models the three methods that carry the algorithmic
   content of the class:
     * `__init__`            → `initState`
     * `set_data`            → `set_data`
     * `_scale_to_res`       → `scale_to_res`
   Python floats are modelled as exact rationals `ℚ`; `int(.)` is
   truncation toward zero (`pyTrunc`); NumPy basic slicing with a
   positive (possibly fractional, truncated-to-int) step is modelled by
   `Grid.slice` with the CPython index-normalisation rule (`pyIdx`) and
   slice-length formula (`sliceCount`).  The Python-2 comparisons
   `x >= None` (true: `None` sorts below every number) and `x <= None`
   (false) used in the cache test on line 51-53 are modelled by `geN`
   and `leN`.  The `changed()` notification of line 64 is modelled as
   the `Bool` component of the result of `scale_to_res`.

   `__init__` sets `_full_res = None`; since every behaviour examined
   here first calls `set_data`, the pre-`set_data` array is modelled as
   the empty grid instead of an option type. -/

/-- A 2D numeric array of shape `(h, w)` (NumPy row-major convention:
`shape[0]` is the number of rows). Values are total functions so that a
strided view is itself a `Grid`. -/
structure Grid where
  h : ℕ
  w : ℕ
  val : ℕ → ℕ → ℤ

/-- CPython index normalisation for a slice bound on an axis of length `n`
(step positive): negative indices count from the end and are clamped at 0,
nonnegative indices are clamped at `n`. -/
def pyIdx (v : ℤ) (n : ℕ) : ℕ :=
  if v < 0 then ((n : ℤ) + v).toNat else min v.toNat n

/-- Number of elements selected by `[start:stop:step]` on an axis of
length `n` (CPython slice-length formula for positive step). -/
def sliceCount (start bstop : ℤ) (step n : ℕ) : ℕ :=
  ((pyIdx bstop n - pyIdx start n) + (step - 1)) / step

/-- NumPy basic slicing `g[ystart:ystop:ystep, xstart:xstop:xstep]` with
positive integer steps. -/
def Grid.slice (g : Grid) (ystart ystop : ℤ) (ystep : ℕ)
    (xstart xstop : ℤ) (xstep : ℕ) : Grid :=
  { h := sliceCount ystart ystop ystep g.h
    w := sliceCount xstart xstop xstep g.w
    val := fun i j => g.val (pyIdx ystart g.h + i * ystep) (pyIdx xstart g.w + j * xstep) }

/-- Python `int(.)` on a float: truncation toward zero. -/
def pyTrunc (q : ℚ) : ℤ := if q < 0 then -⌊-q⌋ else ⌊q⌋

/-- The mutable state of a `ModestImage` instance: the full-resolution
array `_full_res`, the currently displayed array `_A` (inherited from
`AxesImage`), the cached strides `_sx, _sy`, the cached bounds
`_bounds = (x0, x1, y0, y1)` and the render extent set by `set_extent`. -/
structure MIState where
  full_res : Grid
  A : Grid
  sx : Option ℚ
  sy : Option ℚ
  bx0 : Option ℤ
  bx1 : Option ℤ
  by0 : Option ℤ
  by1 : Option ℤ
  extent : Option (ℚ × ℚ × ℚ × ℚ)

/-- State after `__init__` (lines 21-25): strides and bounds are `None`;
the not-yet-set data array is modelled as the empty grid. -/
def emptyGrid : Grid := { h := 0, w := 0, val := fun _ _ => 0 }

/-- Initial state produced by `__init__`. -/
def initState : MIState :=
  { full_res := emptyGrid, A := emptyGrid, sx := none, sy := none
    bx0 := none, bx1 := none, by0 := none, by1 := none, extent := none }

/-- Model of `set_data` (lines 27-30): the superclass stores the array as `_A`,
then `_full_res` is replaced and `_sx, _sy` are reset to `None`
("force redraw").  The `_bounds` tuple is NOT touched. -/
def set_data (s : MIState) (g : Grid) : MIState :=
  { s with full_res := g, A := g, sx := none, sy := none }

/-- Inputs read by `_scale_to_res` from the axes on each call (lines
37-38): the surface pixel extent `ext = (extx, exty)` and the axis
limits `xlim = (xlim0, xlim1)`, `ylim = (ylim0, ylim1)`. -/
structure ViewInput where
  extx : ℚ
  exty : ℚ
  xlim0 : ℚ
  xlim1 : ℚ
  ylim0 : ℚ
  ylim1 : ℚ

/-- Crop bound `x0 = int(max(0, xlim[0] - dx))` (lines 43, 45). -/
def cropX0 (v : ViewInput) : ℤ :=
  pyTrunc (max 0 (v.xlim0 - (v.xlim1 - v.xlim0)))

/-- Crop bound `x1 = int(min(shape[1], xlim[1] + dx))` (lines 44, 45). -/
def cropX1 (s : MIState) (v : ViewInput) : ℤ :=
  pyTrunc (min (s.full_res.w : ℚ) (v.xlim1 + (v.xlim1 - v.xlim0)))

/-- Crop bound `y0 = int(max(0, ylim[0] - dy))` (lines 41, 45). -/
def cropY0 (v : ViewInput) : ℤ :=
  pyTrunc (max 0 (v.ylim0 - (v.ylim1 - v.ylim0)))

/-- Crop bound `y1 = int(min(shape[0], ylim[1] + dy))` (lines 42, 45). -/
def cropY1 (s : MIState) (v : ViewInput) : ℤ :=
  pyTrunc (min (s.full_res.h : ℚ) (v.ylim1 + (v.ylim1 - v.ylim0)))

/-- Stride `sx = max(1, min((x1 - x0) / 5., dx / ext[0]))` (line 48). -/
def computedSx (s : MIState) (v : ViewInput) : ℚ :=
  max 1 (min (((cropX1 s v - cropX0 v : ℤ) : ℚ) / 5)
             ((v.xlim1 - v.xlim0) / v.extx))

/-- Stride `sy = max(1, min((y1 - y0) / 5., dy / ext[1]))` (line 47). -/
def computedSy (s : MIState) (v : ViewInput) : ℚ :=
  max 1 (min (((cropY1 s v - cropY0 v : ℤ) : ℚ) / 5)
             ((v.ylim1 - v.ylim0) / v.exty))

/-- Python-2 `x >= b` where `b` may be `None` (`None` sorts below every
number, so `x >= None` is true). -/
def geN (x : ℤ) : Option ℤ → Bool
  | none => true
  | some b => decide (b ≤ x)

/-- Python-2 `x <= b` where `b` may be `None` (`x <= None` is false). -/
def leN (x : ℤ) : Option ℤ → Bool
  | none => false
  | some b => decide (x ≤ b)

/-- The cache test of lines 51-53: strides equal and the freshly
computed crop region contained in the cached bounds. -/
def cacheHit (s : MIState) (v : ViewInput) : Bool :=
  decide (some (computedSx s v) = s.sx) &&
  decide (some (computedSy s v) = s.sy) &&
  geN (cropX0 v) s.bx0 && leN (cropX1 s v) s.bx1 &&
  geN (cropY0 v) s.by0 && leN (cropY1 s v) s.by1

/-- The strided view taken on a cache miss (line 56):
`_full_res[y0:y1:sy, x0:x1:sx]`, NumPy truncating the float steps. -/
def missA (s : MIState) (v : ViewInput) : Grid :=
  s.full_res.slice (cropY0 v) (cropY1 s v) (Int.toNat ⌊computedSy s v⌋)
                   (cropX0 v) (cropX1 s v) (Int.toNat ⌊computedSx s v⌋)

/-- Model of `_scale_to_res` (lines 32-64).  Returns the new state and whether
`changed()` was called (`true` exactly on the recompute path). -/
def scale_to_res (s : MIState) (v : ViewInput) : MIState × Bool :=
  if cacheHit s v then (s, false)
  else
    ({ s with
        A := missA s v
        extent := some (((cropX0 v : ℚ) - 1/2, ((cropX0 v + (missA s v).w : ℤ) : ℚ) - 1/2,
                         ((cropY0 v : ℚ)) - 1/2, ((cropY0 v + (missA s v).h : ℤ) : ℚ) - 1/2))
        sx := some (computedSx s v)
        sy := some (computedSy s v)
        bx0 := some (cropX0 v)
        bx1 := some (cropX0 v + (missA s v).w)
        by0 := some (cropY0 v)
        by1 := some (cropY0 v + (missA s v).h) }, true)

example : pyTrunc ((7:ℚ)/2) = 3 := by norm_num [pyTrunc]
example : pyTrunc (-(7:ℚ)/2) = -3 := by norm_num [pyTrunc]

/-- The 2000x2000 source array of the worked example (`main`, lines
75-76, builds the same shape). -/
def g2000 : Grid := { h := 2000, w := 2000, val := fun i j => ((i * 2000 + j : ℕ) : ℤ) }

/-- View input of the worked example: 500x500-pixel surface,
`xlim = ylim = (0, 1000)` (lines 90-91). -/
def v2000 : ViewInput :=
  { extx := 500, exty := 500, xlim0 := 0, xlim1 := 1000, ylim0 := 0, ylim1 := 1000 }

/-- State after constructing the artist and calling `set_data(g2000)`. -/
def sA : MIState := set_data initState g2000

theorem sA_full_res : sA.full_res = g2000 := rfl

theorem ev_x0 : cropX0 v2000 = 0 := by norm_num [cropX0, v2000, pyTrunc]

theorem ev_y0 : cropY0 v2000 = 0 := by norm_num [cropY0, v2000, pyTrunc]

theorem ev_x1 : cropX1 sA v2000 = 2000 := by
  norm_num [cropX1, v2000, pyTrunc, sA, set_data, initState, g2000]

theorem ev_y1 : cropY1 sA v2000 = 2000 := by
  norm_num [cropY1, v2000, pyTrunc, sA, set_data, initState, g2000]

theorem ev_sx : computedSx sA v2000 = 2 := by
  rw [computedSx, ev_x0, ev_x1]
  norm_num [v2000]

theorem ev_sy : computedSy sA v2000 = 2 := by
  rw [computedSy, ev_y0, ev_y1]
  norm_num [v2000]

theorem ev_Aw : (missA sA v2000).w = 1000 := by
  simp only [missA, Grid.slice]
  rw [ev_x0, ev_x1, ev_sx, sA_full_res]
  norm_num [sliceCount, pyIdx, g2000]
  decide

theorem ev_Ah : (missA sA v2000).h = 1000 := by
  simp only [missA, Grid.slice]
  rw [ev_y0, ev_y1, ev_sy, sA_full_res]
  norm_num [sliceCount, pyIdx, g2000]
  decide

theorem ev_hit1 : cacheHit sA v2000 = false := by
  simp [cacheHit, sA, set_data]

theorem ev1_changed : (scale_to_res sA v2000).2 = true := by
  simp [scale_to_res, ev_hit1]

/-- State after the first draw of the worked example. -/
def sB : MIState := (scale_to_res sA v2000).1

theorem ev1_state : sB = { sA with
    A := missA sA v2000
    extent := some (((cropX0 v2000 : ℚ) - 1/2, ((cropX0 v2000 + (missA sA v2000).w : ℤ) : ℚ) - 1/2,
                     ((cropY0 v2000 : ℚ)) - 1/2, ((cropY0 v2000 + (missA sA v2000).h : ℤ) : ℚ) - 1/2))
    sx := some (computedSx sA v2000)
    sy := some (computedSy sA v2000)
    bx0 := some (cropX0 v2000)
    bx1 := some (cropX0 v2000 + (missA sA v2000).w)
    by0 := some (cropY0 v2000)
    by1 := some (cropY0 v2000 + (missA sA v2000).h) } := by
  rw [sB, scale_to_res, if_neg]
  rw [ev_hit1]
  simp

theorem sB_full_res : sB.full_res = g2000 := by rw [ev1_state]; exact sA_full_res

theorem sB_sx : sB.sx = some 2 := by rw [ev1_state]; simp [ev_sx]

theorem sB_sy : sB.sy = some 2 := by rw [ev1_state]; simp [ev_sy]

theorem sB_bx1 : sB.bx1 = some 1000 := by rw [ev1_state]; simp [ev_x0, ev_Aw]

theorem sB_extent : sB.extent = some (-(1/2), 1999/2, -(1/2), 1999/2) := by
  rw [ev1_state]
  simp only [ev_x0, ev_y0, ev_Aw, ev_Ah]
  norm_num

theorem sB_A : sB.A = missA sA v2000 := by rw [ev1_state]

theorem ev_x1B : cropX1 sB v2000 = 2000 := by
  rw [cropX1, sB_full_res]
  norm_num [v2000, pyTrunc, g2000]

theorem ev_y1B : cropY1 sB v2000 = 2000 := by
  rw [cropY1, sB_full_res]
  norm_num [v2000, pyTrunc, g2000]

theorem ev_sxB : computedSx sB v2000 = 2 := by
  rw [computedSx, ev_x0, ev_x1B]
  norm_num [v2000]

theorem ev_syB : computedSy sB v2000 = 2 := by
  rw [computedSy, ev_y0, ev_y1B]
  norm_num [v2000]

/-- The second identical call of the worked example misses the cache:
the stored upper bound `1000` does not contain the requested `x1 = 2000`. -/
theorem ev_hit2 : cacheHit sB v2000 = false := by
  rw [cacheHit, ev_x1B, sB_bx1]
  simp [leN]

theorem ev2_changed : (scale_to_res sB v2000).2 = true := by
  simp [scale_to_res, ev_hit2]

/-- The second call re-slices the very same view. -/
theorem ev2_A_eq : (scale_to_res sB v2000).1.A = sB.A := by
  have h2 : (scale_to_res sB v2000).1.A = missA sB v2000 := by
    simp [scale_to_res, ev_hit2]
  rw [h2, sB_A, missA, missA, sB_full_res, sA_full_res,
      ev_x1B, ev_x1, ev_y1B, ev_y1, ev_sxB, ev_sx, ev_syB, ev_sy]

/- General facts about the embedded operations. -/

theorem pyTrunc_nonneg {q : ℚ} (h : 0 ≤ q) : 0 ≤ pyTrunc q := by
  rw [pyTrunc, if_neg (not_lt.mpr h)]
  exact Int.floor_nonneg.mpr h

theorem pyTrunc_le_natCast {q : ℚ} {n : ℕ} (h : q ≤ (n : ℚ)) : pyTrunc q ≤ (n : ℤ) := by
  rw [pyTrunc]
  split_ifs with hq
  · have h0 : (0:ℤ) ≤ ⌊-q⌋ := Int.floor_nonneg.mpr (by linarith)
    have hn : (0:ℤ) ≤ (n : ℤ) := Int.natCast_nonneg n
    omega
  · calc ⌊q⌋ ≤ ⌊(n:ℚ)⌋ := Int.floor_le_floor h
    _ = (n : ℤ) := Int.floor_natCast n

theorem cropX0_nonneg (v : ViewInput) : 0 ≤ cropX0 v :=
  pyTrunc_nonneg (le_max_left _ _)

theorem cropY0_nonneg (v : ViewInput) : 0 ≤ cropY0 v :=
  pyTrunc_nonneg (le_max_left _ _)

theorem cropX1_le (s : MIState) (v : ViewInput) : cropX1 s v ≤ (s.full_res.w : ℤ) :=
  pyTrunc_le_natCast (min_le_left _ _)

theorem cropY1_le (s : MIState) (v : ViewInput) : cropY1 s v ≤ (s.full_res.h : ℤ) :=
  pyTrunc_le_natCast (min_le_left _ _)

theorem one_le_computedSx (s : MIState) (v : ViewInput) : 1 ≤ computedSx s v :=
  le_max_left _ _

theorem one_le_computedSy (s : MIState) (v : ViewInput) : 1 ≤ computedSy s v :=
  le_max_left _ _

theorem one_le_stepX (s : MIState) (v : ViewInput) : 1 ≤ Int.toNat ⌊computedSx s v⌋ := by
  have h1 : (1:ℤ) ≤ ⌊computedSx s v⌋ := by
    rw [Int.le_floor]
    exact_mod_cast one_le_computedSx s v
  omega

theorem one_le_stepY (s : MIState) (v : ViewInput) : 1 ≤ Int.toNat ⌊computedSy s v⌋ := by
  have h1 : (1:ℤ) ≤ ⌊computedSy s v⌋ := by
    rw [Int.le_floor]
    exact_mod_cast one_le_computedSy s v
  omega

theorem pyIdx_le (v : ℤ) (n : ℕ) : pyIdx v n ≤ n := by
  rw [pyIdx]
  split_ifs with h
  · have : (n:ℤ) + v ≤ (n:ℤ) := by omega
    omega
  · exact min_le_right _ _

/-- The slice never selects more elements than the index distance. -/
theorem sliceCount_le (start bstop : ℤ) (step n : ℕ) (hstep : 1 ≤ step) :
    sliceCount start bstop step n ≤ pyIdx bstop n - pyIdx start n := by
  rw [sliceCount]
  calc (pyIdx bstop n - pyIdx start n + (step - 1)) / step
      ≤ ((step - 1) + (pyIdx bstop n - pyIdx start n) * step) / step := by
        apply Nat.div_le_div_right
        have hdd := Nat.le_mul_of_pos_right (pyIdx bstop n - pyIdx start n) (by omega : 0 < step)
        rw [Nat.add_comm]
        exact Nat.add_le_add_left hdd _
    _ = (step - 1) / step + (pyIdx bstop n - pyIdx start n) :=
        Nat.add_mul_div_right _ _ (by omega)
    _ = pyIdx bstop n - pyIdx start n := by
        rw [Nat.div_eq_of_lt (by omega), Nat.zero_add]

/-- On a nonempty slice starting at a nonnegative index, the realized
upper bound `start + count` stays within the axis length. -/
theorem realized_le {start bstop : ℤ} {step n : ℕ} (hstep : 1 ≤ step) (hs : 0 ≤ start)
    (hc : sliceCount start bstop step n ≠ 0) :
    start + (sliceCount start bstop step n : ℤ) ≤ (n : ℤ) := by
  have h1 := sliceCount_le start bstop step n hstep
  have h2 := pyIdx_le start n
  have h3 := pyIdx_le bstop n
  have h4 : pyIdx start n = min start.toNat n := by
    rw [pyIdx, if_neg (not_lt.mpr hs)]
  omega

theorem cropX1_congr {s s' : MIState} (h : s'.full_res = s.full_res) (v : ViewInput) :
    cropX1 s' v = cropX1 s v := by rw [cropX1, cropX1, h]

theorem cropY1_congr {s s' : MIState} (h : s'.full_res = s.full_res) (v : ViewInput) :
    cropY1 s' v = cropY1 s v := by rw [cropY1, cropY1, h]

theorem computedSx_congr {s s' : MIState} (h : s'.full_res = s.full_res) (v : ViewInput) :
    computedSx s' v = computedSx s v := by rw [computedSx, computedSx, cropX1_congr h]

theorem computedSy_congr {s s' : MIState} (h : s'.full_res = s.full_res) (v : ViewInput) :
    computedSy s' v = computedSy s v := by rw [computedSy, computedSy, cropY1_congr h]

theorem missA_congr {s s' : MIState} (h : s'.full_res = s.full_res) (v : ViewInput) :
    missA s' v = missA s v := by
  rw [missA, missA, h, cropX1_congr h, cropY1_congr h, computedSx_congr h, computedSy_congr h]

/-- After `set_data` the stride cache is `None`, so the very next
`_scale_to_res` call can never hit the cache. -/
theorem cacheHit_after_set_data (s : MIState) (g : Grid) (v : ViewInput) :
    cacheHit (set_data s g) v = false := by
  simp [cacheHit, set_data]

/-- Every integer point of `[x0, x1)` lies inside `[0, n)`. -/
def regionWithin (x0 x1 : ℤ) (n : ℕ) : Prop :=
  ∀ t : ℤ, x0 ≤ t → t < x1 → 0 ≤ t ∧ t < (n : ℤ)

/-- The cached view is set and well-formed: both strides are cached and
at least 1, and the cached crop bounds describe a region inside the
index space `[0, width) x [0, height)` of the current source array. -/
def GoodCache (s : MIState) : Prop :=
  (∃ q, s.sx = some q ∧ 1 ≤ q) ∧ (∃ q, s.sy = some q ∧ 1 ≤ q) ∧
  (∃ a b, s.bx0 = some a ∧ s.bx1 = some b ∧ regionWithin a b s.full_res.w) ∧
  (∃ c d, s.by0 = some c ∧ s.by1 = some d ∧ regionWithin c d s.full_res.h)

/-- Reachable-state invariant: either the stride cache is unset (as
after `__init__` or `set_data`) or the whole cached view is good. -/
def CacheInv (s : MIState) : Prop := s.sx = none ∨ GoodCache s

/-- A cache hit forces the cached x-stride to be set. -/
theorem sx_eq_of_hit {s : MIState} {v : ViewInput} (h : cacheHit s v = true) :
    s.sx = some (computedSx s v) := by
  rw [cacheHit] at h
  simp only [Bool.and_eq_true, decide_eq_true_eq] at h
  exact h.1.1.1.1.1.symm

/-- On a cache miss the recompute path installs a good cached view. -/
theorem goodCache_of_miss (s : MIState) (v : ViewInput) (h : cacheHit s v = false) :
    GoodCache (scale_to_res s v).1 := by
  rw [scale_to_res, if_neg (by simp [h])]
  dsimp only [GoodCache]
  refine ⟨⟨computedSx s v, rfl, one_le_computedSx s v⟩,
          ⟨computedSy s v, rfl, one_le_computedSy s v⟩,
          ⟨cropX0 v, cropX0 v + ((missA s v).w : ℤ), rfl, rfl, ?_⟩,
          ⟨cropY0 v, cropY0 v + ((missA s v).h : ℤ), rfl, rfl, ?_⟩⟩
  · intro t ht0 ht1
    refine ⟨le_trans (cropX0_nonneg v) ht0, ?_⟩
    by_cases hc : (missA s v).w = 0
    · rw [hc] at ht1
      omega
    · have hw : (missA s v).w
          = sliceCount (cropX0 v) (cropX1 s v) (Int.toNat ⌊computedSx s v⌋) s.full_res.w := rfl
      rw [hw] at ht1 hc
      have := realized_le (one_le_stepX s v) (cropX0_nonneg v) hc
      omega
  · intro t ht0 ht1
    refine ⟨le_trans (cropY0_nonneg v) ht0, ?_⟩
    by_cases hc : (missA s v).h = 0
    · rw [hc] at ht1
      omega
    · have hh : (missA s v).h
          = sliceCount (cropY0 v) (cropY1 s v) (Int.toNat ⌊computedSy s v⌋) s.full_res.h := rfl
      rw [hh] at ht1 hc
      have := realized_le (one_le_stepY s v) (cropY0_nonneg v) hc
      omega

/-- The stride formula exactly as the specification words it:
`stride = max(1, min((crop_hi - crop_lo) / 5, span / pixels))`. -/
def strideSpecFormula (cropLo cropHi : ℤ) (span pix : ℚ) : ℚ :=
  max 1 (min (((cropHi - cropLo : ℤ) : ℚ) / 5) (span / pix))

/-- C1: for every redraw request with a valid source array, non-inverted
axis limits and positive surface pixel dimensions, the stride computed
by `_scale_to_res` on each axis equals
`max(1, min((crop_hi - crop_lo)/5, span/surface_pixels))` over the
integer-truncated padded crop bounds of that axis. -/
theorem C1_stride_matches_spec (s : MIState) (v : ViewInput)
    (_hx : v.xlim0 ≤ v.xlim1) (_hy : v.ylim0 ≤ v.ylim1)
    (_hex : 0 < v.extx) (_hey : 0 < v.exty) :
    computedSx s v = strideSpecFormula (cropX0 v) (cropX1 s v) (v.xlim1 - v.xlim0) v.extx ∧
    computedSy s v = strideSpecFormula (cropY0 v) (cropY1 s v) (v.ylim1 - v.ylim0) v.exty :=
  ⟨rfl, rfl⟩

/-- C10: after `set_data` the first `_scale_to_res` always recomputes:
the computed strides are at least 1 while the cached strides are `None`,
so the stride-equality test fails and `changed()` is emitted. -/
theorem C10_set_data_forces_recompute :
    ∀ (s : MIState) (g : Grid) (v : ViewInput),
      (set_data s g).sx = none ∧
      1 ≤ computedSx (set_data s g) v ∧ 1 ≤ computedSy (set_data s g) v ∧
      cacheHit (set_data s g) v = false ∧
      (scale_to_res (set_data s g) v).2 = true := by
  intro s g v
  refine ⟨rfl, one_le_computedSx _ _, one_le_computedSy _ _,
          cacheHit_after_set_data s g v, ?_⟩
  simp [scale_to_res, cacheHit_after_set_data s g v]

/-- C5 (amended): `set_data` always succeeds, replaces the source
array, and resets only the cached strides to `None` — the cached bounds
are left unchanged — which alone forces a full recomputation (with a
`changed()` emission) on the next render preparation. -/
theorem C5_set_data_resets_strides_only :
    ∀ (s : MIState) (g : Grid) (v : ViewInput),
      (set_data s g).full_res = g ∧ (set_data s g).A = g ∧
      (set_data s g).sx = none ∧ (set_data s g).sy = none ∧
      (set_data s g).bx0 = s.bx0 ∧ (set_data s g).bx1 = s.bx1 ∧
      (set_data s g).by0 = s.by0 ∧ (set_data s g).by1 = s.by1 ∧
      (scale_to_res (set_data s g) v).2 = true := by
  intro s g v
  refine ⟨rfl, rfl, rfl, rfl, rfl, rfl, rfl, rfl, ?_⟩
  simp [scale_to_res, cacheHit_after_set_data s g v]

/-- C5 counterexample: after a draw has populated `_bounds`, `set_data`
leaves the stale bounds in place (`_bounds[1] = 1000` here) instead of
resetting them to an empty sentinel as the claim states. -/
theorem C5_counterexample :
    (set_data sB g2000).sx = none ∧ (set_data sB g2000).sy = none ∧
    (set_data sB g2000).bx1 = some 1000 :=
  ⟨rfl, rfl, sB_bx1⟩

/-- C6: render preparation always leaves a well-formed cache: both
strides at least 1 and the realized crop region inside
`[0, width) x [0, height)` of the source array (given the reachability
invariant that an unset stride cache is the only alternative to a good
one). -/
theorem C6_bounds_invariant (s : MIState) (v : ViewInput) (hs : CacheInv s) :
    GoodCache (scale_to_res s v).1 := by
  cases h : cacheHit s v
  · exact goodCache_of_miss s v h
  · rw [scale_to_res, if_pos (by simp [h])]
    rcases hs with hnone | hgood
    · rw [sx_eq_of_hit h] at hnone
      exact absurd hnone (by simp)
    · exact hgood

/-- A stride of the reference shape never grows when the pixel count
doubles. -/
theorem stride_halfpix_le {a dx e : ℚ} (he : 0 < e) :
    max 1 (min a (dx / (2 * e))) ≤ max 1 (min a (dx / e)) := by
  rcases le_or_lt 0 dx with hdx | hdx
  · have h1 : dx / (2 * e) ≤ dx / e := by
      rw [div_le_div_iff₀ (by positivity) he]
      nlinarith [mul_nonneg hdx he.le]
    exact max_le_max le_rfl (min_le_min le_rfl h1)
  · have h1 : min a (dx / (2 * e)) ≤ 1 := by
      have hneg : dx / (2 * e) < 0 := div_neg_of_neg_of_pos hdx (by positivity)
      exact le_trans (min_le_right _ _) (by linarith)
    have h2 : min a (dx / e) ≤ 1 := by
      have hneg : dx / e < 0 := div_neg_of_neg_of_pos hdx he
      exact le_trans (min_le_right _ _) (by linarith)
    rw [max_eq_left h1, max_eq_left h2]

/-- A view input whose surface pixel dimensions are doubled. -/
def doubleSurface (v : ViewInput) : ViewInput :=
  { v with extx := 2 * v.extx, exty := 2 * v.exty }

/-- C7: with the view window fixed, doubling both surface pixel
dimensions never increases the computed stride on either axis. -/
theorem C7_stride_monotone (s : MIState) (v : ViewInput)
    (hex : 0 < v.extx) (hey : 0 < v.exty) :
    computedSx s (doubleSurface v) ≤ computedSx s v ∧
    computedSy s (doubleSurface v) ≤ computedSy s v :=
  ⟨stride_halfpix_le hex, stride_halfpix_le hey⟩

/-- C3: evaluating the code on the spec worked example (2000x2000
array, limits (0,1000) on both axes, 500x500-pixel surface): stride 2 on
both axes and a 1000x1000-sample subsample as the claim states, but the
render extent the code installs is `(-0.5, 999.5, -0.5, 999.5)` —
line 57-58 do not multiply the realized span by the stride — not the
claimed `(-0.5, 1999.5, -0.5, 1999.5)`. -/
theorem C3_worked_example :
    computedSx sA v2000 = 2 ∧ computedSy sA v2000 = 2 ∧
    (scale_to_res sA v2000).2 = true ∧
    (scale_to_res sA v2000).1.A.h = 1000 ∧ (scale_to_res sA v2000).1.A.w = 1000 ∧
    (scale_to_res sA v2000).1.extent = some (-(1/2), 1999/2, -(1/2), 1999/2) := by
  refine ⟨ev_sx, ev_sy, ev1_changed, ?_, ?_, sB_extent⟩
  · show sB.A.h = 1000
    rw [sB_A]
    exact ev_Ah
  · show sB.A.w = 1000
    rw [sB_A]
    exact ev_Aw

/-- C2: on the spec worked example, the second identical call after a
data update re-slices (the realized bound 1000 stored by the first call
does not contain the requested `x1 = 2000`) and emits `changed()`
again, contradicting the claimed idempotence; the subsample it produces
is nevertheless bit-identical to the first one. -/
theorem C2_second_call_reslices :
    (scale_to_res sA v2000).2 = true ∧
    (scale_to_res (scale_to_res sA v2000).1 v2000).2 = true ∧
    (scale_to_res (scale_to_res sA v2000).1 v2000).1.A = (scale_to_res sA v2000).1.A := by
  refine ⟨ev1_changed, ev2_changed, ?_⟩
  show (scale_to_res sB v2000).1.A = sB.A
  exact ev2_A_eq

/-- C4: whenever the computed strides equal the cached strides and the
computed crop region is contained in the cached bounds, `_scale_to_res`
takes the early return of line 54: state (subsample, extent, strides,
bounds) unchanged and no `changed()` emission. -/
theorem C4_cache_hit_is_noop (s : MIState) (v : ViewInput) (a b c d : ℤ)
    (hsx : s.sx = some (computedSx s v)) (hsy : s.sy = some (computedSy s v))
    (hbx0 : s.bx0 = some a) (hbx1 : s.bx1 = some b)
    (hby0 : s.by0 = some c) (hby1 : s.by1 = some d)
    (hx0 : a ≤ cropX0 v) (hx1 : cropX1 s v ≤ b)
    (hy0 : c ≤ cropY0 v) (hy1 : cropY1 s v ≤ d) :
    scale_to_res s v = (s, false) := by
  have hhit : cacheHit s v = true := by
    rw [cacheHit, hsx, hsy, hbx0, hbx1, hby0, hby1]
    simp [geN, leN, hx0, hx1, hy0, hy1]
  simp [scale_to_res, hhit]

/-- A view input whose first draw caches strides 1 and exactly the
requested crop, so that repeating it hits the cache. -/
def vHit : ViewInput :=
  { extx := 10, exty := 10, xlim0 := 0, xlim1 := 10, ylim0 := 0, ylim1 := 10 }

theorem evH_x0 : cropX0 vHit = 0 := by norm_num [cropX0, vHit, pyTrunc]

theorem evH_y0 : cropY0 vHit = 0 := by norm_num [cropY0, vHit, pyTrunc]

theorem evH_x1 : cropX1 sA vHit = 20 := by
  norm_num [cropX1, vHit, pyTrunc, sA, set_data, initState, g2000]

theorem evH_y1 : cropY1 sA vHit = 20 := by
  norm_num [cropY1, vHit, pyTrunc, sA, set_data, initState, g2000]

theorem evH_sx : computedSx sA vHit = 1 := by
  rw [computedSx, evH_x0, evH_x1]
  norm_num [vHit]

theorem evH_sy : computedSy sA vHit = 1 := by
  rw [computedSy, evH_y0, evH_y1]
  norm_num [vHit]

theorem evH_Aw : (missA sA vHit).w = 20 := by
  simp only [missA, Grid.slice]
  rw [evH_x0, evH_x1, evH_sx, sA_full_res]
  norm_num [sliceCount, pyIdx, g2000]
  decide

theorem evH_Ah : (missA sA vHit).h = 20 := by
  simp only [missA, Grid.slice]
  rw [evH_y0, evH_y1, evH_sy, sA_full_res]
  norm_num [sliceCount, pyIdx, g2000]
  decide

theorem evH_hit1 : cacheHit sA vHit = false := by
  simp [cacheHit, sA, set_data]

/-- State after the first draw of the `vHit` view. -/
def sHit : MIState := (scale_to_res sA vHit).1

theorem evH_state : sHit = { sA with
    A := missA sA vHit
    extent := some (((cropX0 vHit : ℚ) - 1/2, ((cropX0 vHit + (missA sA vHit).w : ℤ) : ℚ) - 1/2,
                     ((cropY0 vHit : ℚ)) - 1/2, ((cropY0 vHit + (missA sA vHit).h : ℤ) : ℚ) - 1/2))
    sx := some (computedSx sA vHit)
    sy := some (computedSy sA vHit)
    bx0 := some (cropX0 vHit)
    bx1 := some (cropX0 vHit + (missA sA vHit).w)
    by0 := some (cropY0 vHit)
    by1 := some (cropY0 vHit + (missA sA vHit).h) } := by
  rw [sHit, scale_to_res, if_neg]
  rw [evH_hit1]
  simp

theorem sHit_full_res : sHit.full_res = g2000 := by rw [evH_state]; exact sA_full_res

theorem sHit_sx : sHit.sx = some 1 := by rw [evH_state]; simp [evH_sx]

theorem sHit_sy : sHit.sy = some 1 := by rw [evH_state]; simp [evH_sy]

theorem sHit_bx0 : sHit.bx0 = some 0 := by rw [evH_state]; simp [evH_x0]

theorem sHit_bx1 : sHit.bx1 = some 20 := by rw [evH_state]; simp [evH_x0, evH_Aw]

theorem sHit_by0 : sHit.by0 = some 0 := by rw [evH_state]; simp [evH_y0]

theorem sHit_by1 : sHit.by1 = some 20 := by rw [evH_state]; simp [evH_y0, evH_Ah]

theorem sHit_fr_eq : sHit.full_res = sA.full_res := sHit_full_res

theorem evH_x1B : cropX1 sHit vHit = 20 := by
  rw [cropX1_congr sHit_fr_eq, evH_x1]

theorem evH_y1B : cropY1 sHit vHit = 20 := by
  rw [cropY1_congr sHit_fr_eq, evH_y1]

theorem evH_sxB : computedSx sHit vHit = 1 := by
  rw [computedSx_congr sHit_fr_eq, evH_sx]

theorem evH_syB : computedSy sHit vHit = 1 := by
  rw [computedSy_congr sHit_fr_eq, evH_sy]

/-- Witness for C4 at a concrete input: repeating the `vHit` view after
its first draw is a no-op without a `changed()` emission. -/
theorem C4_witness : scale_to_res sHit vHit = (sHit, false) :=
  C4_cache_hit_is_noop sHit vHit 0 20 0 20
    (by rw [evH_sxB]; exact sHit_sx) (by rw [evH_syB]; exact sHit_sy)
    sHit_bx0 sHit_bx1 sHit_by0 sHit_by1
    (by rw [evH_x0]) (by rw [evH_x1B]) (by rw [evH_y0]) (by rw [evH_y1B])

/-- Witness for C1 at a concrete input. -/
theorem C1_witness :
    computedSx sA vHit = strideSpecFormula (cropX0 vHit) (cropX1 sA vHit)
      (vHit.xlim1 - vHit.xlim0) vHit.extx ∧
    computedSy sA vHit = strideSpecFormula (cropY0 vHit) (cropY1 sA vHit)
      (vHit.ylim1 - vHit.ylim0) vHit.exty :=
  C1_stride_matches_spec sA vHit (by norm_num [vHit]) (by norm_num [vHit])
    (by norm_num [vHit]) (by norm_num [vHit])

/-- Witness for C6 at a concrete input. -/
theorem C6_witness : CacheInv sA ∧ GoodCache (scale_to_res sA vHit).1 :=
  ⟨Or.inl rfl, C6_bounds_invariant sA vHit (Or.inl rfl)⟩

/-- Witness for C7 at a concrete input. -/
theorem C7_witness :
    computedSx sA (doubleSurface vHit) ≤ computedSx sA vHit ∧
    computedSy sA (doubleSurface vHit) ≤ computedSy sA vHit :=
  C7_stride_monotone sA vHit (by norm_num [vHit]) (by norm_num [vHit])

/-- A view whose computed stride is the fraction `6/5`: greater than 1,
yet NumPy truncates it to step 1, so the slice keeps every sample. -/
def vC9 : ViewInput :=
  { extx := 2, exty := 2, xlim0 := 0, xlim1 := 3, ylim0 := 0, ylim1 := 3 }

theorem evC9_x0 : cropX0 vC9 = 0 := by norm_num [cropX0, vC9, pyTrunc]

theorem evC9_y0 : cropY0 vC9 = 0 := by norm_num [cropY0, vC9, pyTrunc]

theorem evC9_x1 : cropX1 sA vC9 = 6 := by
  norm_num [cropX1, vC9, pyTrunc, sA, set_data, initState, g2000]

theorem evC9_y1 : cropY1 sA vC9 = 6 := by
  norm_num [cropY1, vC9, pyTrunc, sA, set_data, initState, g2000]

theorem evC9_sx : computedSx sA vC9 = 6/5 := by
  rw [computedSx, evC9_x0, evC9_x1]
  norm_num [vC9]

theorem evC9_sy : computedSy sA vC9 = 6/5 := by
  rw [computedSy, evC9_y0, evC9_y1]
  norm_num [vC9]

theorem evC9_Aw : (missA sA vC9).w = 6 := by
  simp only [missA, Grid.slice]
  rw [evC9_x0, evC9_x1, evC9_sx, sA_full_res]
  norm_num [sliceCount, pyIdx, g2000]
  decide

theorem evC9_Ah : (missA sA vC9).h = 6 := by
  simp only [missA, Grid.slice]
  rw [evC9_y0, evC9_y1, evC9_sy, sA_full_res]
  norm_num [sliceCount, pyIdx, g2000]
  decide

theorem evC9_hit1 : cacheHit sA vC9 = false := by
  simp [cacheHit, sA, set_data]

theorem evC9_changed1 : (scale_to_res sA vC9).2 = true := by
  simp [scale_to_res, evC9_hit1]

/-- State after the first draw of the `vC9` view. -/
def sC9 : MIState := (scale_to_res sA vC9).1

theorem evC9_state : sC9 = { sA with
    A := missA sA vC9
    extent := some (((cropX0 vC9 : ℚ) - 1/2, ((cropX0 vC9 + (missA sA vC9).w : ℤ) : ℚ) - 1/2,
                     ((cropY0 vC9 : ℚ)) - 1/2, ((cropY0 vC9 + (missA sA vC9).h : ℤ) : ℚ) - 1/2))
    sx := some (computedSx sA vC9)
    sy := some (computedSy sA vC9)
    bx0 := some (cropX0 vC9)
    bx1 := some (cropX0 vC9 + (missA sA vC9).w)
    by0 := some (cropY0 vC9)
    by1 := some (cropY0 vC9 + (missA sA vC9).h) } := by
  rw [sC9, scale_to_res, if_neg]
  rw [evC9_hit1]
  simp

theorem sC9_full_res : sC9.full_res = g2000 := by rw [evC9_state]; exact sA_full_res

theorem sC9_sx : sC9.sx = some (6/5) := by rw [evC9_state]; simp [evC9_sx]

theorem sC9_sy : sC9.sy = some (6/5) := by rw [evC9_state]; simp [evC9_sy]

theorem sC9_bx0 : sC9.bx0 = some 0 := by rw [evC9_state]; simp [evC9_x0]

theorem sC9_bx1 : sC9.bx1 = some 6 := by rw [evC9_state]; simp [evC9_x0, evC9_Aw]

theorem sC9_by0 : sC9.by0 = some 0 := by rw [evC9_state]; simp [evC9_y0]

theorem sC9_by1 : sC9.by1 = some 6 := by rw [evC9_state]; simp [evC9_y0, evC9_Ah]

theorem sC9_fr_eq : sC9.full_res = sA.full_res := sC9_full_res

theorem evC9_x1B : cropX1 sC9 vC9 = 6 := by rw [cropX1_congr sC9_fr_eq, evC9_x1]

theorem evC9_y1B : cropY1 sC9 vC9 = 6 := by rw [cropY1_congr sC9_fr_eq, evC9_y1]

theorem evC9_sxB : computedSx sC9 vC9 = 6/5 := by rw [computedSx_congr sC9_fr_eq, evC9_sx]

theorem evC9_syB : computedSy sC9 vC9 = 6/5 := by rw [computedSy_congr sC9_fr_eq, evC9_sy]

/-- Repeating the fractional-stride view hits the cache. -/
theorem evC9_hit2 : cacheHit sC9 vC9 = true := by
  rw [cacheHit, evC9_sxB, evC9_syB, sC9_sx, sC9_sy, evC9_x0, evC9_y0, evC9_x1B, evC9_y1B,
      sC9_bx0, sC9_bx1, sC9_by0, sC9_by1]
  simp [geN, leN]

/-- C9 counterexample: at the `vC9` view, the first call is a miss with
stride `6/5 > 1` over a crop spanning `6 > 6/5` samples, yet the cached
upper bound equals the requested `x1` (the truncated step is 1, so no
samples are dropped), and the repeated request hits the cache instead of
failing the containment test. -/
theorem C9_counterexample :
    1 < computedSx sA vC9 ∧
    computedSx sA vC9 < ((cropX1 sA vC9 - cropX0 vC9 : ℤ) : ℚ) ∧
    (scale_to_res sA vC9).2 = true ∧
    (scale_to_res sA vC9).1.bx1 = some (cropX1 sA vC9) ∧
    (scale_to_res (scale_to_res sA vC9).1 vC9).2 = false := by
  refine ⟨?_, ?_, evC9_changed1, ?_, ?_⟩
  · rw [evC9_sx]
    norm_num
  · rw [evC9_sx, evC9_x0, evC9_x1]
    norm_num
  · show sC9.bx1 = some (cropX1 sA vC9)
    rw [sC9_bx1, evC9_x1]
  · show (scale_to_res sC9 vC9).2 = false
    simp [scale_to_res, evC9_hit2]

/-- C9 (amended): lines 57-58 store `x1 = x0 + ncols`, `y1 = y0 + nrows`
with no multiplication by the stride; so on every miss whose floored
x-stride is at least 2 and whose requested x-crop spans more than that
floored stride, the cached `x1` is strictly smaller than the requested
`x1`, and repeating the same request misses the cache again (emitting
`changed()`). -/
theorem C9_amended_realized_bounds (s : MIState) (v : ViewInput)
    (hmiss : cacheHit s v = false)
    (hstep : 2 ≤ ⌊computedSx s v⌋)
    (hspan : ⌊computedSx s v⌋ < cropX1 s v - cropX0 v) :
    (scale_to_res s v).1.bx1 = some (cropX0 v + ((missA s v).w : ℤ)) ∧
    (scale_to_res s v).1.by1 = some (cropY0 v + ((missA s v).h : ℤ)) ∧
    cropX0 v + ((missA s v).w : ℤ) < cropX1 s v ∧
    (scale_to_res (scale_to_res s v).1 v).2 = true := by
  have hbx1 : (scale_to_res s v).1.bx1 = some (cropX0 v + ((missA s v).w : ℤ)) := by
    simp [scale_to_res, hmiss]
  have hby1 : (scale_to_res s v).1.by1 = some (cropY0 v + ((missA s v).h : ℤ)) := by
    simp [scale_to_res, hmiss]
  have hfull : (scale_to_res s v).1.full_res = s.full_res := by
    simp [scale_to_res, hmiss]
  have hx0n : 0 ≤ cropX0 v := cropX0_nonneg v
  have hx1w : cropX1 s v ≤ (s.full_res.w : ℤ) := cropX1_le s v
  have ht2 : 2 ≤ Int.toNat ⌊computedSx s v⌋ := by omega
  have hx01 : cropX0 v < cropX1 s v := by omega
  have ha : pyIdx (cropX0 v) s.full_res.w = (cropX0 v).toNat := by
    rw [pyIdx, if_neg (not_lt.mpr hx0n)]
    have hle : (cropX0 v).toNat ≤ s.full_res.w := by omega
    rw [min_eq_left hle]
  have hb : pyIdx (cropX1 s v) s.full_res.w = (cropX1 s v).toNat := by
    have h1 : ¬cropX1 s v < 0 := by omega
    rw [pyIdx, if_neg h1]
    have hle : (cropX1 s v).toNat ≤ s.full_res.w := by omega
    rw [min_eq_left hle]
  have hw : (missA s v).w
      = sliceCount (cropX0 v) (cropX1 s v) (Int.toNat ⌊computedSx s v⌋) s.full_res.w := rfl
  have hdt : Int.toNat ⌊computedSx s v⌋ < (cropX1 s v).toNat - (cropX0 v).toNat := by omega
  have hcount : sliceCount (cropX0 v) (cropX1 s v) (Int.toNat ⌊computedSx s v⌋) s.full_res.w
      < (cropX1 s v).toNat - (cropX0 v).toNat := by
    rw [sliceCount, ha, hb]
    rw [Nat.div_lt_iff_lt_mul (by omega : 0 < Int.toNat ⌊computedSx s v⌋)]
    have h2d : ((cropX1 s v).toNat - (cropX0 v).toNat) * 2
        ≤ ((cropX1 s v).toNat - (cropX0 v).toNat) * Int.toNat ⌊computedSx s v⌋ :=
      Nat.mul_le_mul (le_refl _) ht2
    generalize hz : ((cropX1 s v).toNat - (cropX0 v).toNat) * Int.toNat ⌊computedSx s v⌋ = z at h2d ⊢
    omega
  have hlt : cropX0 v + ((missA s v).w : ℤ) < cropX1 s v := by
    rw [hw]
    omega
  have hhit2 : cacheHit (scale_to_res s v).1 v = false := by
    rw [cacheHit, cropX1_congr hfull, hbx1]
    have hle : leN (cropX1 s v) (some (cropX0 v + ((missA s v).w : ℤ))) = false := by
      simp [leN]
      omega
    rw [hle]
    simp
  refine ⟨hbx1, hby1, hlt, ?_⟩
  have hrun : ∀ s' : MIState, cacheHit s' v = false → (scale_to_res s' v).2 = true := by
    intro s' h
    simp [scale_to_res, h]
  exact hrun _ hhit2

/-- A view with integer stride 2 over a 20-sample crop. -/
def v20a : ViewInput :=
  { extx := 5, exty := 5, xlim0 := 0, xlim1 := 10, ylim0 := 0, ylim1 := 10 }

theorem ev20_x0 : cropX0 v20a = 0 := by norm_num [cropX0, v20a, pyTrunc]

theorem ev20_x1 : cropX1 sA v20a = 20 := by
  norm_num [cropX1, v20a, pyTrunc, sA, set_data, initState, g2000]

theorem ev20_sx : computedSx sA v20a = 2 := by
  rw [computedSx, ev20_x0, ev20_x1]
  norm_num [v20a]

/-- Witness for the amended C9 at a concrete input. -/
theorem C9_witness :
    (scale_to_res sA v20a).1.bx1 = some (cropX0 v20a + ((missA sA v20a).w : ℤ)) ∧
    (scale_to_res sA v20a).1.by1 = some (cropY0 v20a + ((missA sA v20a).h : ℤ)) ∧
    cropX0 v20a + ((missA sA v20a).w : ℤ) < cropX1 sA v20a ∧
    (scale_to_res (scale_to_res sA v20a).1 v20a).2 = true :=
  C9_amended_realized_bounds sA v20a
    (by simp [cacheHit, sA, set_data])
    (by rw [ev20_sx]; norm_num)
    (by rw [ev20_sx, ev20_x0, ev20_x1]; norm_num)

/-- The cache invariant holds in the freshly constructed state. -/
theorem cacheInv_initState : CacheInv initState := Or.inl rfl

/-- The cache invariant is preserved by `set_data`. -/
theorem cacheInv_set_data (s : MIState) (g : Grid) : CacheInv (set_data s g) :=
  Or.inl rfl

/-- The cache invariant is preserved by `_scale_to_res`, so it holds in
every reachable state. -/
theorem cacheInv_scale_to_res (s : MIState) (v : ViewInput) (hs : CacheInv s) :
    CacheInv (scale_to_res s v).1 := by
  cases h : cacheHit s v
  · exact Or.inr (goodCache_of_miss s v h)
  · rw [scale_to_res, if_pos (by simp [h])]
    exact hs
